import Mathlib

/-!
Verification of the OSS-Fuzz build-plan compiler
(`infra/build/functions/build_project.py`,
`infra/build/functions/build_and_run_coverage.py`) against its
natural-language specification.  The Python source is shallowly embedded:
dict-shaped build steps become a `Step` structure, exceptions become
`Option`/`Except`, and external `build_lib` collaborators become an explicit
record of functions.
-/

namespace OssFuzz

/-- Characters treated as whitespace by Python regex class backslash-s. -/
def isPySpace (c : Char) : Bool :=
  c = ' ' || c = '\t' || c = '\n' || c = '\r' || c = '\x0b' || c = '\x0c'

/-- Insert a string into a sorted list, keeping ascending code-point order.
Used to embed the Python builtin `sorted` on lists of strings. -/
def insertSorted (x : String) : List String → List String
  | [] => [x]
  | y :: ys => if compare x y = Ordering.gt then y :: insertSorted x ys else x :: y :: ys

/-- Embeds the Python builtin `sorted` on a list of strings (ascending
lexicographic order on code points, stable). -/
def sortStrings (l : List String) : List String := l.foldr insertSorted []

/-- Embeds the Python expression `'*' * 80` used for the failure banners. -/
def stars80 : String := String.mk (List.replicate 80 '*')

/-! ## Compatibility matrix (`build_project.is_supported_configuration`) -/

/-- One row of `build_lib.ENGINE_INFO`: the engine's declared supported
sanitizers and architectures (spec section 4.2, rule 1). -/
structure FuzzingEngineInfo where
  supported_sanitizers : List String
  supported_architectures : List String
deriving DecidableEq

/-- Embeds the `Build` class of `build_project.py`: one
(engine, sanitizer, architecture) triple. -/
structure BuildTriple where
  fuzzing_engine : String
  sanitizer : String
  architecture : String
deriving DecidableEq

/-- Embeds `Build.out`: `posixpath.join('/workspace/out/', f'...-...-...')`. -/
def BuildTriple.out (b : BuildTriple) : String :=
  "/workspace/out/" ++ b.fuzzing_engine ++ "-" ++ b.sanitizer ++ "-" ++ b.architecture

/-- Embeds `build_project.is_supported_configuration`.  The source first
indexes `build_lib.ENGINE_INFO[engine]` (a `KeyError` on a missing engine is
modelled by `none`), then rejects i386 with a non-address sanitizer, then
consults the engine's declared sets. -/
def is_supported_configuration (engineInfo : String → Option FuzzingEngineInfo)
    (b : BuildTriple) : Option Bool :=
  match engineInfo b.fuzzing_engine with
  | none => none
  | some info =>
    if b.architecture = "i386" && b.sanitizer != "address" then some false
    else some (info.supported_sanitizers.contains b.sanitizer &&
               info.supported_architectures.contains b.architecture)

/-! ## Working-directory parsing (`build_project.workdir_from_dockerfile`) -/

/-- Embeds one application of `re.match(r'\s*WORKDIR\s*([^\s]+)', line)`:
optional leading whitespace, the case-sensitive literal `WORKDIR`, optional
whitespace, then the captured maximal nonempty run of non-whitespace. -/
def matchWorkdirLine (line : String) : Option String :=
  let cs := line.data.dropWhile isPySpace
  if cs.take 7 = "WORKDIR".data then
    let arg := ((cs.drop 7).dropWhile isPySpace).takeWhile (fun c => !(isPySpace c))
    if arg.isEmpty then none else some (String.mk arg)
  else none

/-- Embeds `.replace('$', '$$')` (a single-character pattern, so the Python
replace is exactly a per-character expansion). -/
def escapeDollars (s : String) : String :=
  String.mk (s.data.flatMap fun c => if c = '$' then ['$', '$'] else [c])

/-- Embeds `build_project.workdir_from_dockerfile`: return the escaped
capture of the first matching line, else `None`. -/
def workdir_from_dockerfile : List String → Option String
  | [] => none
  | line :: rest =>
    match matchWorkdirLine line with
    | some arg => some (escapeDollars arg)
    | none => workdir_from_dockerfile rest

/-- Embeds the fallback in `Project.__init__`:
`self.workdir = workdir_from_dockerfile(...); if not self.workdir: '/src'`. -/
def resolveWorkdir (dockerfile_lines : List String) : String :=
  (workdir_from_dockerfile dockerfile_lines).getD "/src"

/-! ## Project descriptor and sanitizer normalization -/

/-- Sanitizer-specific nested options carried by a mapping-shaped entry. -/
def SanOptions := List (String × String)

/-- One entry of the descriptor's `sanitizers` list: a bare name string or a
mapping from names to nested options (Python dicts keep insertion order). -/
inductive SanitizerEntry where
  | name (s : String)
  | mapping (entries : List (String × SanOptions))

/-- The names a single sanitizer entry contributes, in order. -/
def SanitizerEntry.names : SanitizerEntry → List String
  | .name s => [s]
  | .mapping es => es.map Prod.fst

/-- Embeds the resolved `Project` class of `build_project.py` (after the
descriptor has been loaded and defaulted); `sanitizersRaw` embeds the
`_sanitizers` field holding the raw descriptor entries. -/
structure Project where
  name : String
  image_project : String
  workdir : String
  sanitizersRaw : List SanitizerEntry
  disabled : Bool
  architectures : List String
  fuzzing_engines : List String
  coverage_extra_args : String
  labels : List (String × String)
  fuzzing_language : String
  run_tests : Bool

/-- Embeds the `Project.sanitizers` property: bare strings are kept, and each
key of a mapping entry is appended, in order. -/
def Project.sanitizers (p : Project) : List String :=
  p.sanitizersRaw.flatMap SanitizerEntry.names

/-- Embeds the `Project.image` property. -/
def Project.image (p : Project) : String :=
  "gcr.io/" ++ p.image_project ++ "/" ++ p.name

/-! ## Steps and the external `build_lib` collaborator -/

/-- Embeds the dict-shaped build step handed to the executor:
`{name, env, args, volumes}` (absent keys embed as empty lists). -/
structure Step where
  name : String
  env : List String := []
  args : List String := []
  volumes : List (String × String) := []
deriving DecidableEq, Inhabited

/-- Modelled from the spec: the external `build_lib` module is not under
`src/`, only its callers are.  Each field stands for one `build_lib`
function (or missing `build_project` helper) the planners call, specified
only at its interface: image-preparation steps, the per-engine upload-bucket
table, signed-URL generation, targets-list naming, the HTTP-upload and
gsutil step constructors, the corpus-download collaborator (section 4.5),
the coverage compile-step constructor, and the GCS URL format string. -/
structure BuildLib where
  project_image_steps : String → String → String → Option String → Bool → List Step
  get_upload_bucket : String → Bool → String
  get_signed_url : String → String → String
  get_targets_list_filename : String → String
  get_targets_list_url : String → String → String → String
  http_upload_step : String → String → String → Step
  download_corpora_steps : String → Bool → List Step
  gsutil_rm_rf_step : String → Step
  get_compile_step : String → List String → String → String → String → String →
    List String → Step
  gcs_upload_url_format : String → String → String → String
  gcs_url_basename : String

/-- Embeds `build_project.LATEST_VERSION_FILENAME`. -/
def LATEST_VERSION_FILENAME : String := "latest.version"

/-- Embeds `build_project.LATEST_VERSION_CONTENT_TYPE`. -/
def LATEST_VERSION_CONTENT_TYPE : String := "text/plain"

/-- Embeds `build_project.get_env`: the env dict rendered as `KEY=VALUE`
strings and passed through the Python builtin `sorted`. -/
def get_env (fuzzing_language : String) (b : BuildTriple) : List String :=
  sortStrings
    ["FUZZING_LANGUAGE=" ++ fuzzing_language,
     "FUZZING_ENGINE=" ++ b.fuzzing_engine,
     "SANITIZER=" ++ b.sanitizer,
     "ARCHITECTURE=" ++ b.architecture,
     "HOME=/root",
     "OUT=" ++ b.out]

/-- Embeds the compile-step failure banner built in
`build_project.get_compile_step`. -/
def compile_failure_msg (p : Project) (b : BuildTriple) : String :=
  stars80 ++ "\nFailed to build.\nTo reproduce, run:\n" ++
  "python infra/helper.py build_image " ++ p.name ++ "\n" ++
  "python infra/helper.py build_fuzzers --sanitizer " ++ b.sanitizer ++
  " --engine " ++ b.fuzzing_engine ++ " --architecture " ++ b.architecture ++
  " " ++ p.name ++ "\n" ++ stars80

/-- Embeds `build_project.get_compile_step`. -/
def get_compile_step (p : Project) (b : BuildTriple) (env : List String) : Step :=
  { name := p.image
    env := env
    args := ["bash", "-c",
      "rm -r /out && cd /src && cd " ++ p.workdir ++ " && mkdir -p " ++ b.out ++
      " && compile || (echo \"" ++ compile_failure_msg p b ++ "\" && false)"] }

/-- Embeds `build_project.get_runner_image_name`. -/
def get_runner_image_name (base_images_project : String) (testing : Bool) : String :=
  "gcr.io/" ++ base_images_project ++ "/base-runner" ++
  (if testing then "-testing" else "")

/-- Embeds the build-check failure banner built inline in
`build_project.get_build_steps`. -/
def check_failure_msg (p : Project) (b : BuildTriple) : String :=
  stars80 ++ "\nBuild checks failed.\nTo reproduce, run:\n" ++
  "python infra/helper.py build_image " ++ p.name ++ "\n" ++
  "python infra/helper.py build_fuzzers --sanitizer " ++ b.sanitizer ++
  " --engine " ++ b.fuzzing_engine ++ " --architecture " ++ b.architecture ++
  " " ++ p.name ++ "\n" ++
  "python infra/helper.py check_build --sanitizer " ++ b.sanitizer ++
  " --engine " ++ b.fuzzing_engine ++ " --architecture " ++ b.architecture ++
  " " ++ p.name ++ "\n" ++ stars80

/-- Embeds the `json.dumps` rendering of the label mapping passed to
`write_labels.py` (the `json` module is external; dicts keep insertion
order and `dumps` uses `", "` and `": "` separators). -/
def json_dumps_obj (kvs : List (String × String)) : String :=
  "\x7b" ++
  String.intercalate ", " (kvs.map fun kv => "\"" ++ kv.1 ++ "\": \"" ++ kv.2 ++ "\"") ++
  "\x7d"

/-- Embeds `build_project.dataflow_post_build_steps`: `None` when the corpus
collaborator yields no steps, else the corpus steps plus the DFT step. -/
def dataflow_post_build_steps (bl : BuildLib) (project_name : String)
    (env : List String) (base_images_project : String) (testing : Bool) :
    Option (List Step) :=
  let steps := bl.download_corpora_steps project_name testing
  if steps.isEmpty then none
  else some (steps ++
    [{ name := get_runner_image_name base_images_project testing
       env := env ++
        ["COLLECT_DFT_TIMEOUT=2h", "DFT_FILE_SIZE_LIMIT=65535",
         "DFT_MIN_TIMEOUT=2.0", "DFT_TIMEOUT_RANGE=6.0"]
       args := ["bash", "-c",
        "for f in /corpus/*.zip; do unzip -q $f -d $\x7bf%%.*\x7d; done && " ++
        "collect_dft || (echo \"DFT collection failed.\" && false)"]
       volumes := [("corpus", "/corpus")] }])

/-! ## Naming and addressing (`build_project.get_upload_steps`) -/

/-- Embeds `'-'.join([project.name, build.sanitizer, timestamp])`. -/
def stamped_name (project sanitizer timestamp : String) : String :=
  String.intercalate "-" [project, sanitizer, timestamp]

/-- Embeds the bucket adjustment in `get_upload_steps`:
`if build.architecture != 'x86_64': bucket += '-' + build.architecture`. -/
def upload_bucket (baseBucket architecture : String) : String :=
  if architecture != "x86_64" then baseBucket ++ "-" ++ architecture else baseBucket

/-- Embeds `build_project.get_upload_steps`: zip, srcmap upload, binary
upload, targets-list upload, latest-version pointer, cleanup. -/
def get_upload_steps (bl : BuildLib) (p : Project) (b : BuildTriple)
    (timestamp base_images_project : String) (testing : Bool) : List Step :=
  let bucket := upload_bucket (bl.get_upload_bucket b.fuzzing_engine testing) b.architecture
  let stamped := stamped_name p.name b.sanitizer timestamp
  let zip_file := stamped ++ ".zip"
  let upload_url := bl.get_signed_url (bl.gcs_upload_url_format bucket p.name zip_file) ""
  let stamped_srcmap_file := stamped ++ ".srcmap.json"
  let srcmap_url :=
    bl.get_signed_url (bl.gcs_upload_url_format bucket p.name stamped_srcmap_file) ""
  let latest_version_file :=
    String.intercalate "-" [p.name, b.sanitizer, LATEST_VERSION_FILENAME]
  let latest_version_url :=
    bl.get_signed_url (bl.gcs_upload_url_format bucket p.name latest_version_file)
      LATEST_VERSION_CONTENT_TYPE
  let targets_list_url :=
    bl.get_signed_url (bl.get_targets_list_url bucket p.name b.sanitizer) ""
  let targets_list_filename := bl.get_targets_list_filename b.sanitizer
  [{ name := p.image
     args := ["bash", "-c", "cd " ++ b.out ++ " && zip -r " ++ zip_file ++ " *"] },
   { name := "gcr.io/" ++ base_images_project ++ "/uploader"
     args := ["/workspace/srcmap.json", srcmap_url] },
   { name := "gcr.io/" ++ base_images_project ++ "/uploader"
     args := [b.out ++ "/" ++ zip_file, upload_url] },
   { name := "gcr.io/" ++ base_images_project ++ "/uploader"
     args := ["/workspace/" ++ targets_list_filename, targets_list_url] },
   bl.http_upload_step zip_file latest_version_url LATEST_VERSION_CONTENT_TYPE,
   { name := p.image
     args := ["bash", "-c", "rm -r " ++ b.out] }]

/-! ## Fuzz-build step assembler (`build_project.get_build_steps`) -/

/-- The steps one loop iteration of `build_project.get_build_steps` appends
for one (engine, sanitizer, architecture) triple: nothing for an unsupported
triple, a `KeyError` (modelled as `Except.error`) for an engine missing from
`ENGINE_INFO`, else compile, optional test, optional label writing, the
optional dataflow post-build block, the targets-list step and the upload
steps, in source order. -/
def variant_steps (bl : BuildLib) (engineInfo : String → Option FuzzingEngineInfo)
    (p : Project) (timestamp base_images_project : String) (testing : Bool)
    (fuzzing_engine sanitizer architecture : String) : Except String (List Step) :=
  let b : BuildTriple := ⟨fuzzing_engine, sanitizer, architecture⟩
  match is_supported_configuration engineInfo b with
  | none => .error ("KeyError: " ++ fuzzing_engine)
  | some false => .ok []
  | some true =>
    let env := get_env p.fuzzing_language b
    let compile_step := get_compile_step p b env
    let test_steps :=
      if p.run_tests then
        [{ name := get_runner_image_name base_images_project testing
           env := env
           args := ["bash", "-c",
            "test_all.py || (echo \"" ++ check_failure_msg p b ++ "\" && false)"] }]
      else []
    let label_steps :=
      if p.labels.isEmpty then []
      else
        [{ name := p.image
           env := env
           args := ["/usr/local/bin/write_labels.py", json_dumps_obj p.labels, b.out] }]
    let dataflow_steps :=
      if b.sanitizer = "dataflow" && b.fuzzing_engine = "dataflow" then
        match dataflow_post_build_steps bl p.name env base_images_project testing with
        | some steps => steps
        | none => []
      else []
    let targets_list_filename := bl.get_targets_list_filename b.sanitizer
    let targets_steps :=
      [{ name := get_runner_image_name base_images_project testing
         env := env
         args := ["bash", "-c",
          "targets_list > /workspace/" ++ targets_list_filename] }]
    .ok ([compile_step] ++ test_steps ++ label_steps ++ dataflow_steps ++
      targets_steps ++ get_upload_steps bl p b timestamp base_images_project testing)

/-- Embeds `build_project.get_build_steps`.  The `Project` construction
(descriptor and Dockerfile loading) is external I/O, so its outcome is the
`pd` argument: `none` embeds the caught `FileNotFoundError` (the source
returns `[]` for it), `some project` a successful load.  The timestamp is
the injected current time.  Engines are sorted, and the triple loop runs
engine-major, sanitizer, architecture, as in the source. -/
def get_build_steps (bl : BuildLib) (engineInfo : String → Option FuzzingEngineInfo)
    (pd : Option Project) (timestamp base_images_project : String)
    (testing : Bool) (branch : Option String) (test_images : Bool) :
    Except String (List Step) :=
  match pd with
  | none => .ok []
  | some p =>
    if p.disabled then .ok []
    else do
      let perEngine ← (sortStrings p.fuzzing_engines).mapM fun fuzzing_engine => do
        let perSan ← p.sanitizers.mapM fun sanitizer => do
          let perArch ← p.architectures.mapM fun architecture =>
            variant_steps bl engineInfo p timestamp base_images_project testing
              fuzzing_engine sanitizer architecture
          pure perArch.flatten
        pure perSan.flatten
      pure (bl.project_image_steps p.name p.image p.fuzzing_language branch test_images ++
        perEngine.flatten)

/-! ## Coverage planner (`build_and_run_coverage.get_build_steps`) -/

/-- Embeds the relevant fields of the defaulted `project.yaml` mapping the
coverage planner reads. -/
structure ProjectYaml where
  disabled : Bool
  language : String
  coverage_extra_args : String
  fuzzing_engines : List String
deriving DecidableEq

/-- The error kind of the Config Resolver for missing project files
(spec section 7, ConfigNotFound). -/
inductive ConfigError where
  | configNotFound
deriving DecidableEq

/-- Embeds `build_project.ImageInfo` as used by the coverage planner. -/
structure ImageInfo where
  project : String
  base_images_project : String

/-- Embeds `build_and_run_coverage.SANITIZER`. -/
def COV_SANITIZER : String := "coverage"

/-- Embeds `build_and_run_coverage.FUZZING_ENGINE`. -/
def COV_FUZZING_ENGINE : String := "libfuzzer"

/-- Embeds `build_and_run_coverage.ARCHITECTURE`. -/
def COV_ARCHITECTURE : String := "x86_64"

/-- Embeds `build_and_run_coverage.PLATFORM`. -/
def PLATFORM : String := "linux"

/-- Embeds `build_and_run_coverage.COVERAGE_BUCKET_NAME`. -/
def COVERAGE_BUCKET_NAME : String := "oss-fuzz-coverage"

/-- Embeds `build_and_run_coverage.LATEST_REPORT_INFO_CONTENT_TYPE`. -/
def LATEST_REPORT_INFO_CONTENT_TYPE : String := "application/json"

/-- Embeds `build_and_run_coverage.LANGUAGES_WITH_COVERAGE_SUPPORT`. -/
def LANGUAGES_WITH_COVERAGE_SUPPORT : List String := ["c", "c++", "go", "jvm", "rust"]

/-- Modelled from the spec: `build_project.get_project_image` is called by
the coverage planner but missing from the sources; per the naming component
it forms the image identity from the image namespace and project name,
matching the in-source `Project.image` property. -/
def get_project_image (image_info : ImageInfo) (project_name : String) : String :=
  "gcr.io/" ++ image_info.project ++ "/" ++ project_name

/-- Modelled from the spec: `build_project.get_out_dir` is called by the
coverage planner but missing from the sources; per section 4.4 it is the
variant-private output directory under the workspace, named by sanitizer. -/
def get_out_dir (sanitizer : String) : String :=
  "/workspace/out/" ++ sanitizer

/-- Embeds the `URLInfo` class of `build_and_run_coverage.py`. -/
structure URLInfo where
  coverage_bucket_name : String
  date : String
  project : String
  html_report_url : String
  latest_report_info_url : String

/-- Embeds `URLInfo.__init__`. -/
def URLInfo.make (bl : BuildLib) (project date platform : String) (testing : Bool) :
    URLInfo :=
  let bucket := "oss-fuzz-coverage" ++ (if testing then "-testing" else "")
  { coverage_bucket_name := bucket
    date := date
    project := project
    html_report_url := bl.gcs_url_basename ++ bucket ++ "/" ++ project ++
      "/reports/" ++ date ++ "/" ++ platform ++ "/index.html"
    latest_report_info_url := "/" ++ COVERAGE_BUCKET_NAME ++
      "/latest_report_info/" ++ project ++ ".json" }

/-- Embeds `URLInfo.get_upload_url`. -/
def URLInfo.get_upload_url (u : URLInfo) (upload_type : String) : String :=
  "gs://" ++ u.coverage_bucket_name ++ "/" ++ u.project ++ "/" ++ upload_type ++
  "/" ++ u.date

/-- Embeds the Python `str.rstrip('/')` used on the srcmap upload URL. -/
def rstripSlashes (s : String) : String :=
  String.mk (s.data.reverse.dropWhile (fun c => c = '/')).reverse

/-- Embeds the coverage failure banner built in
`build_and_run_coverage.get_build_steps`. -/
def coverage_failure_msg (project_name : String) : String :=
  stars80 ++ "\nCode coverage report generation failed.\nTo reproduce, run:\n" ++
  "python infra/helper.py build_image " ++ project_name ++ "\n" ++
  "python infra/helper.py build_fuzzers --sanitizer coverage " ++ project_name ++ "\n" ++
  "python infra/helper.py coverage " ++ project_name ++ "\n" ++ stars80

/-- Embeds the unpack-and-run-coverage shell command of the coverage step. -/
def coverage_unpack_cmd (project_name : String) : String :=
  "for f in /corpus/*.zip; do unzip -q $f -d $\x7bf%%.*\x7d || (" ++
  "echo \"Failed to unpack the corpus for $(basename $\x7bf%%.*\x7d). " ++
  "This usually means that corpus backup for a particular fuzz " ++
  "target does not exist. If a fuzz target was added in the last " ++
  "24 hours, please wait one more day. Otherwise, something is " ++
  "wrong with the fuzz target or the infrastructure, and corpus " ++
  "pruning task does not finish successfully.\" && exit 1" ++
  "); done && coverage || (echo \"" ++ coverage_failure_msg project_name ++
  "\" && false)"

/-- Embeds `build_and_run_coverage.get_build_steps`.  The result of the
missing `build_project.get_project_data` loader is the `pd` argument
(`Except.error` embeds the propagated ConfigNotFound exception, which this
function does not catch); `report_date` is the injected current date.  Note
the source computes the compile step (via `build_lib.get_compile_step`) but
never appends it to `build_steps`; the embedding keeps that dead binding. -/
def coverage_get_build_steps (bl : BuildLib)
    (pd : Except ConfigError (ProjectYaml × List String))
    (project_name : String) (image_info : ImageInfo) (report_date : String)
    (testing : Bool) (branch : Option String) (test_images : Bool) :
    Except ConfigError (List Step) := do
  let (project_yaml, dockerfile_lines) ← pd
  if project_yaml.disabled then pure []
  else if !(LANGUAGES_WITH_COVERAGE_SUPPORT.contains project_yaml.language) then pure []
  else
    let image := get_project_image image_info project_name
    let url_info := URLInfo.make bl project_name report_date PLATFORM testing
    let image_steps := bl.project_image_steps project_name image project_yaml.language
      branch test_images
    let out := get_out_dir COV_SANITIZER
    let env := get_env project_yaml.language
      ⟨COV_FUZZING_ENGINE, COV_SANITIZER, COV_ARCHITECTURE⟩
    let _compile_step_unused := bl.get_compile_step project_name env image
      COV_FUZZING_ENGINE COV_SANITIZER COV_ARCHITECTURE dockerfile_lines
    let download_corpora_steps := bl.download_corpora_steps project_name testing
    if download_corpora_steps.isEmpty then pure []
    else
      let coverage_env := env ++
        ["HTTP_PORT=",
         "COVERAGE_EXTRA_ARGS=" ++ project_yaml.coverage_extra_args.trim] ++
        (if project_yaml.fuzzing_engines.contains "dataflow" then
          ["FULL_SUMMARY_PER_TARGET=1"] else [])
      let coverage_step : Step :=
        { name := "gcr.io/" ++ image_info.base_images_project ++ "/base-runner"
          env := coverage_env
          args := ["bash", "-c", coverage_unpack_cmd project_name]
          volumes := [("corpus", "/corpus")] }
      let upload_report_url := url_info.get_upload_url "reports"
      let upload_fuzzer_stats_url := url_info.get_upload_url "fuzzer_stats"
      let upload_fuzzer_logs_url := url_info.get_upload_url "logs"
      let srcmap_upload_url := rstripSlashes (url_info.get_upload_url "srcmap") ++ ".json"
      let latest_report_info_url := bl.get_signed_url url_info.latest_report_info_url
        LATEST_REPORT_INFO_CONTENT_TYPE
      let latest_report_info_body := json_dumps_obj
        [("fuzzer_stats_dir", upload_fuzzer_stats_url),
         ("html_report_url", url_info.html_report_url),
         ("report_date", report_date),
         ("report_summary_path", upload_report_url ++ "/" ++ PLATFORM ++ "/summary.json")]
      pure (image_steps ++ download_corpora_steps ++
        [coverage_step,
         bl.gsutil_rm_rf_step upload_report_url,
         { name := "gcr.io/cloud-builders/gsutil"
           args := ["-m", "cp", "-r", out ++ "/report", upload_report_url] },
         bl.gsutil_rm_rf_step upload_fuzzer_stats_url,
         { name := "gcr.io/cloud-builders/gsutil"
           args := ["-m", "cp", "-r", out ++ "/fuzzer_stats", upload_fuzzer_stats_url] },
         bl.gsutil_rm_rf_step upload_fuzzer_logs_url,
         { name := "gcr.io/cloud-builders/gsutil"
           args := ["-m", "cp", "-r", out ++ "/logs", upload_fuzzer_logs_url] },
         { name := "gcr.io/cloud-builders/gsutil"
           args := ["cp", "/workspace/srcmap.json", srcmap_upload_url] },
         bl.http_upload_step latest_report_info_body latest_report_info_url
           LATEST_REPORT_INFO_CONTENT_TYPE])

/-! ## Build history ledger -/

/-- The ledger capacity (spec section 4.6 and the `request_build_test.py`
history tests). -/
def MAX_BUILD_HISTORY_LENGTH : Nat := 64

/-- Modelled from the spec: `request_build.update_build_history` is only
exercised by `request_build_test.py`, its definition is not under `src/`.
Per section 4.6: a missing record becomes a single-element identifier list;
an existing record gets the new id appended, then ids are dropped from the
front (oldest first) until the length is at most the capacity 64. -/
def update_build_history (record : Option (List String)) (newBuildId : String) :
    List String :=
  match record with
  | none => [newBuildId]
  | some build_ids =>
    let appended := build_ids ++ [newBuildId]
    appended.drop (appended.length - MAX_BUILD_HISTORY_LENGTH)

/-- Folding a whole id sequence into one ledger record, starting from an
absent record: the store after recording each id in turn. -/
def record_all (ids : List String) : Option (List String) :=
  ids.foldl (fun record i => some (update_build_history record i)) none

/-! ## Step classifiers

Predicates picking out the step categories the spec counts (section 8's
scenario), keyed on the distinctive entrypoint each category invokes. -/

/-- The third `args` entry (the shell command of a `bash -c` step). -/
def Step.cmd (s : Step) : String := s.args.getD 2 ""

/-- Structural character-list prefix test (first argument is the pattern),
used by the classifiers so that concrete plans evaluate in the kernel. -/
def leadsWith : List Char → List Char → Bool
  | [], _ => true
  | _ :: _, [] => false
  | p :: ps, c :: cs => p = c && leadsWith ps cs

/-- A compile step: its shell command starts with the clean-build guard
`rm -r /out && cd /src`. -/
def isCompileStep (s : Step) : Bool := leadsWith "rm -r /out && cd /src".data s.cmd.data

/-- A build-check (test) step: its shell command invokes `test_all.py`. -/
def isTestStep (s : Step) : Bool := leadsWith "test_all.py".data s.cmd.data

/-- A targets-list step: its shell command invokes `targets_list`. -/
def isTargetsListStep (s : Step) : Bool := leadsWith "targets_list".data s.cmd.data

/-- A label-writing step: its entrypoint is `write_labels.py`. -/
def isLabelStep (s : Step) : Bool := s.args.getD 0 "" = "/usr/local/bin/write_labels.py"

/-- A workspace cleanup step: its shell command removes the variant's
private output directory. -/
def isCleanupStep (s : Step) : Bool := leadsWith "rm -r /workspace/out/".data s.cmd.data

/-- An upload-related step: anything in the upload chain other than the
final cleanup (zip, srcmap upload, binary upload, targets-list upload,
latest-version pointer). -/
def isUploadRelatedStep (s : Step) : Bool :=
  !(isCompileStep s || isTestStep s || isTargetsListStep s || isLabelStep s ||
    isCleanupStep s)

/-! ## Spec-modelled collaborator instance and concrete scenario inputs -/

/-- Modelled from the spec: a concrete `build_lib` instance for evaluating
the planners on scenario inputs.  The spec fixes only the interfaces
(sections 4.3, 4.5): the assembler contributes no image-preparation steps of
its own, signed URLs address the given location, the targets list is a
workspace file named after the sanitizer, the per-engine bucket table is
keyed by engine (with testing buckets suffixed), and the HTTP-upload and
gsutil constructors yield one step each.  The corpus collaborator yields no
steps here; scenario inputs that need corpora override that field. -/
def specBuildLib : BuildLib :=
  { project_image_steps := fun _ _ _ _ _ => []
    get_upload_bucket := fun engine testing =>
      "clusterfuzz-builds-" ++ engine ++ (if testing then "-testing" else "")
    get_signed_url := fun url _ => url
    get_targets_list_filename := fun sanitizer => "targets.list." ++ sanitizer
    get_targets_list_url := fun bucket project sanitizer =>
      "https://storage.googleapis.com/" ++ bucket ++ "/" ++ project ++
      "/targets.list." ++ sanitizer
    http_upload_step := fun data url content_type =>
      { name := "gcr.io/cloud-builders/curl"
        args := [data, url, content_type] }
    download_corpora_steps := fun _ _ => []
    gsutil_rm_rf_step := fun url =>
      { name := "gcr.io/cloud-builders/gsutil"
        args := ["-m", "rm", "-rf", url] }
    get_compile_step := fun project_name env image _ sanitizer _ _ =>
      { name := image
        env := env
        args := ["bash", "-c",
          "rm -r /out && cd /src && cd /src/" ++ project_name ++
          " && mkdir -p " ++ get_out_dir sanitizer ++ " && compile"] }
    gcs_upload_url_format := fun bucket project file =>
      "https://storage.googleapis.com/" ++ bucket ++ "/" ++ project ++ "/" ++ file
    gcs_url_basename := "https://storage.googleapis.com/" }

/-- Modelled from the spec: an `ENGINE_INFO` capability table for scenario
evaluation.  Section 4.1's defaults (engines libfuzzer/afl/honggfuzz,
sanitizers address/undefined, architecture x86_64) must pass the matrix, and
the i386/address pairing of section 4.2 must be expressible for libFuzzer. -/
def specEngineInfo : String → Option FuzzingEngineInfo := fun engine =>
  if engine = "libfuzzer" then
    some ⟨["address", "undefined", "memory", "coverage", "none"], ["x86_64", "i386"]⟩
  else if engine = "afl" then some ⟨["address"], ["x86_64"]⟩
  else if engine = "honggfuzz" then some ⟨["address"], ["x86_64"]⟩
  else if engine = "dataflow" then some ⟨["dataflow"], ["x86_64"]⟩
  else none

/-- The section 8 scenario project: engines `{libfuzzer}`, sanitizers
`{address, undefined}`, architectures `{x86_64}`, `run_tests`, no labels. -/
def scenarioProject : Project :=
  { name := "libxml2"
    image_project := "oss-fuzz"
    workdir := "/src/libxml2"
    sanitizersRaw := [.name "address", .name "undefined"]
    disabled := false
    architectures := ["x86_64"]
    fuzzing_engines := ["libfuzzer"]
    coverage_extra_args := ""
    labels := []
    fuzzing_language := "c"
    run_tests := true }

/-- The fuzz-build plan for the section 8 scenario (empty on a planner
error, which the scenario does not hit). -/
def scenarioPlan : List Step :=
  ((get_build_steps specBuildLib specEngineInfo (some scenarioProject)
    "202010102020" "oss-fuzz-base" false none false).toOption).getD []

/-- A project identical to the scenario one except for its raw sanitizer
entries; used to state descriptor-interface properties of the
`Project.sanitizers` view. -/
def projectWithSanitizers (entries : List SanitizerEntry) : Project :=
  { scenarioProject with sanitizersRaw := entries }

/-! ## Theorems -/

set_option maxRecDepth 40000

/-- Claim C1: for every engine present in the capability table, every
sanitizer and every architecture, `is_supported_configuration` returns
false when the architecture is `i386` and the sanitizer is not `address`;
otherwise it returns true exactly when the sanitizer is in the engine's
supported-sanitizer set and the architecture is in its
supported-architecture set. -/
theorem c1_is_supported_configuration_spec
    (engineInfo : String → Option FuzzingEngineInfo) (b : BuildTriple)
    (info : FuzzingEngineInfo) (hlookup : engineInfo b.fuzzing_engine = some info) :
    (b.architecture = "i386" → b.sanitizer ≠ "address" →
      is_supported_configuration engineInfo b = some false) ∧
    (¬ (b.architecture = "i386" ∧ b.sanitizer ≠ "address") →
      (is_supported_configuration engineInfo b = some true ↔
        b.sanitizer ∈ info.supported_sanitizers ∧
        b.architecture ∈ info.supported_architectures)) := by
  constructor
  · intro harch hsan
    simp [is_supported_configuration, hlookup, harch, hsan]
  · intro hnot
    have hcond : (b.architecture = "i386" && b.sanitizer != "address") = false := by
      by_cases harch : b.architecture = "i386"
      · by_cases hsan : b.sanitizer = "address"
        · simp [hsan]
        · exact absurd ⟨harch, hsan⟩ hnot
      · simp [harch]
    simp only [is_supported_configuration, hlookup]
    simp [hcond, List.elem_iff]

/-- Witness for C1: with a table giving libFuzzer the sanitizers
`{address}` and architectures `{x86_64, i386}`, the pair (undefined, i386)
is rejected by the i386 rule and (address, x86_64) is accepted. -/
theorem c1_is_supported_configuration_spec_witness :
    is_supported_configuration
      (fun e => if e = "libfuzzer" then
        some ⟨["address"], ["x86_64", "i386"]⟩ else none)
      ⟨"libfuzzer", "undefined", "i386"⟩ = some false ∧
    is_supported_configuration
      (fun e => if e = "libfuzzer" then
        some ⟨["address"], ["x86_64", "i386"]⟩ else none)
      ⟨"libfuzzer", "address", "x86_64"⟩ = some true := by
  refine ⟨?_, ?_⟩
  · exact (c1_is_supported_configuration_spec _ _ ⟨["address"], ["x86_64", "i386"]⟩
      (by decide)).1 (by decide) (by decide)
  · exact (c1_is_supported_configuration_spec _ _ ⟨["address"], ["x86_64", "i386"]⟩
      (by decide)).2 (by decide) |>.mpr (by decide)

/-- Claim C3: recording a build id against an absent ledger record creates
the single-element list; recording against an existing record appends the id
and evicts from the front down to the capacity 64 (the result is a suffix of
the appended list with length `min (n+1) 64`); recording 70 sequential ids
into one key leaves exactly the last 64 in their original relative order
(and, matching `request_build_test.test_build_history`, adding id 65 to the
full list 1..64 leaves 2..65). -/
theorem c3_build_history_ledger :
    (∀ newBuildId : String, update_build_history none newBuildId = [newBuildId]) ∧
    (∀ (build_ids : List String) (newBuildId : String),
      (update_build_history (some build_ids) newBuildId).length =
        min (build_ids.length + 1) MAX_BUILD_HISTORY_LENGTH ∧
      (update_build_history (some build_ids) newBuildId) <:+ (build_ids ++ [newBuildId])) ∧
    record_all ((List.range 70).map fun i => toString (i + 1)) =
      some ((List.range 64).map fun i => toString (i + 7)) ∧
    update_build_history (some ((List.range 64).map fun i => toString (i + 1))) "65" =
      (List.range 64).map fun i => toString (i + 2) := by
  refine ⟨fun _ => rfl, fun build_ids newBuildId => ⟨?_, ?_⟩, by decide, by decide⟩
  · simp [update_build_history, MAX_BUILD_HISTORY_LENGTH]
    omega
  · exact List.drop_suffix _ _

/-- Claim C6: the resolved working directory is the regex capture of the
first build-environment line matching the case-sensitive `WORKDIR` keyword,
with every dollar character doubled (the doubling exactly doubles the count
of dollar characters); when no line matches, the resolver falls back to the
fixed default `/src`. -/
theorem c6_workdir_resolution :
    (∀ (pre : List String) (line : String) (post : List String) (arg : String),
      (∀ l ∈ pre, matchWorkdirLine l = none) → matchWorkdirLine line = some arg →
      resolveWorkdir (pre ++ line :: post) = escapeDollars arg) ∧
    (∀ lines : List String, (∀ l ∈ lines, matchWorkdirLine l = none) →
      resolveWorkdir lines = "/src") ∧
    (∀ s : String, (escapeDollars s).data.count '$' = 2 * s.data.count '$') := by
  refine ⟨?_, ?_, ?_⟩
  · intro pre line post arg hpre hline
    induction pre with
    | nil => simp [resolveWorkdir, workdir_from_dockerfile, hline]
    | cons l ls ih =>
      have hl : matchWorkdirLine l = none := hpre l (by simp)
      have hrest : ∀ x ∈ ls, matchWorkdirLine x = none := fun x hx => hpre x (by simp [hx])
      simpa [resolveWorkdir, workdir_from_dockerfile, hl] using ih hrest
  · intro lines hnone
    induction lines with
    | nil => rfl
    | cons l ls ih =>
      have hl : matchWorkdirLine l = none := hnone l (by simp)
      have hrest : ∀ x ∈ ls, matchWorkdirLine x = none := fun x hx => hnone x (by simp [hx])
      simpa [resolveWorkdir, workdir_from_dockerfile, hl] using ih hrest
  · intro s
    show ((s.data.flatMap fun c => if c = '$' then ['$', '$'] else [c]).count '$') = _
    induction s.data with
    | nil => rfl
    | cons c cs ih =>
      by_cases hc : c = '$' <;>
        simp [hc, List.count_cons, List.count_append, ih, Nat.mul_add]

/-- Witness for C6: a Dockerfile whose second line declares
`WORKDIR $SRC/app` resolves to `$$SRC/app`, and one with no declaration
resolves to `/src`. -/
theorem c6_workdir_resolution_witness :
    resolveWorkdir ["FROM gcr.io/oss-fuzz-base/base-builder", "WORKDIR $SRC/app"] =
      "$$SRC/app" ∧
    resolveWorkdir ["FROM gcr.io/oss-fuzz-base/base-builder"] = "/src" := by
  constructor
  · have h := c6_workdir_resolution.1 ["FROM gcr.io/oss-fuzz-base/base-builder"]
      "WORKDIR $SRC/app" [] "$SRC/app" (by decide) (by decide)
    simpa using h
  · exact c6_workdir_resolution.2.1 ["FROM gcr.io/oss-fuzz-base/base-builder"] (by decide)

/-- Claim C7: the stamped name is `project-sanitizer-timestamp`; the archive
and source-map names used by the upload steps are the stamped name followed
by `.zip` and `.srcmap.json`; the upload bucket is the engine's base bucket
with `-architecture` appended exactly when the architecture is not the
default `x86_64`; and identical inputs give byte-identical names (the naming
functions are pure). -/
theorem c7_naming (project sanitizer timestamp baseBucket architecture : String)
    (bl : BuildLib) (p : Project) (b : BuildTriple) (base : String) (testing : Bool) :
    stamped_name project sanitizer timestamp =
      project ++ "-" ++ sanitizer ++ "-" ++ timestamp ∧
    (architecture ≠ "x86_64" →
      upload_bucket baseBucket architecture = baseBucket ++ "-" ++ architecture) ∧
    upload_bucket baseBucket "x86_64" = baseBucket ∧
    ((get_upload_steps bl p b timestamp base testing).getD 0 default).args.getD 2 "" =
      "cd " ++ b.out ++ " && zip -r " ++
      (stamped_name p.name b.sanitizer timestamp ++ ".zip") ++ " *" ∧
    ((get_upload_steps bl p b timestamp base testing).getD 1 default).args.getD 1 "" =
      bl.get_signed_url
        (bl.gcs_upload_url_format
          (upload_bucket (bl.get_upload_bucket b.fuzzing_engine testing) b.architecture)
          p.name (stamped_name p.name b.sanitizer timestamp ++ ".srcmap.json")) "" ∧
    stamped_name project sanitizer timestamp = stamped_name project sanitizer timestamp := by
  refine ⟨?_, ?_, ?_, rfl, rfl, rfl⟩
  · simp [stamped_name, String.intercalate]
    rfl
  · intro h
    simp [upload_bucket, h]
  · simp [upload_bucket]

/-- Witness for C7: for a non-default architecture the bucket gains the
architecture suffix. -/
theorem c7_naming_witness :
    upload_bucket "clusterfuzz-builds-libfuzzer" "i386" =
      "clusterfuzz-builds-libfuzzer-i386" ∧
    stamped_name "libxml2" "address" "202010102020" =
      "libxml2-address-202010102020" := by
  refine ⟨?_, ?_⟩
  · exact (c7_naming "libxml2" "address" "202010102020" "clusterfuzz-builds-libfuzzer"
      "i386" specBuildLib scenarioProject ⟨"libfuzzer", "address", "i386"⟩
      "oss-fuzz-base" false).2.1 (by decide)
  · exact (c7_naming "libxml2" "address" "202010102020" "clusterfuzz-builds-libfuzzer"
      "i386" specBuildLib scenarioProject ⟨"libfuzzer", "address", "i386"⟩
      "oss-fuzz-base" false).1

/-- Claim C8: the `Project.sanitizers` view yields only the names contained
in the supplied entries (bare names themselves, mapping entries their keys),
concatenated in the order the entries were supplied (the view is an append
homomorphism over the entry list), and performs no deduplication (a repeated
name stays repeated). -/
theorem c8_sanitizers_view :
    (∀ p : Project, p.sanitizers = p.sanitizersRaw.flatMap SanitizerEntry.names) ∧
    (∀ es fs : List SanitizerEntry,
      (projectWithSanitizers (es ++ fs)).sanitizers =
        (projectWithSanitizers es).sanitizers ++ (projectWithSanitizers fs).sanitizers) ∧
    (∀ s : String, (projectWithSanitizers [.name s]).sanitizers = [s]) ∧
    (∀ kvs : List (String × SanOptions),
      (projectWithSanitizers [.mapping kvs]).sanitizers = kvs.map Prod.fst) ∧
    (projectWithSanitizers [.name "address", .name "address"]).sanitizers =
      ["address", "address"] := by
  refine ⟨fun p => rfl, fun es fs => ?_, fun s => rfl, fun kvs => ?_, rfl⟩
  · simp [Project.sanitizers, projectWithSanitizers]
  · simp [Project.sanitizers, projectWithSanitizers, SanitizerEntry.names]

/-- Claim C10: a single mapping-shaped sanitizer entry contributes every one
of its keys, in the mapping's own key order, to the `Project.sanitizers`
view (followed by the names of the remaining entries), not just one name
per entry. -/
theorem c10_mapping_entry_contributes_all_keys :
    (∀ (kvs : List (String × SanOptions)) (rest : List SanitizerEntry),
      (projectWithSanitizers (SanitizerEntry.mapping kvs :: rest)).sanitizers =
        kvs.map Prod.fst ++ (projectWithSanitizers rest).sanitizers) ∧
    (projectWithSanitizers
      [.mapping [("address", []), ("memory", [("experimental", "True")])]]).sanitizers =
      ["address", "memory"] ∧
    ((projectWithSanitizers
      [.mapping [("address", []), ("memory", [("experimental", "True")])]]).sanitizers).length
      = 2 := by
  refine ⟨fun kvs rest => ?_, rfl, rfl⟩
  simp [Project.sanitizers, projectWithSanitizers, SanitizerEntry.names]

/-- Claim C2 (amended): a missing descriptor or Dockerfile makes the
fuzz-build planner return the empty plan, and a disabled project makes both
planners return the empty plan; but the coverage planner propagates a
missing-file ConfigNotFound error instead of returning the empty plan. -/
theorem c2_skip_behavior :
    (∀ (bl : BuildLib) (ei : String → Option FuzzingEngineInfo)
       (ts base : String) (testing : Bool) (branch : Option String) (ti : Bool),
      get_build_steps bl ei none ts base testing branch ti = .ok []) ∧
    (∀ (bl : BuildLib) (ei : String → Option FuzzingEngineInfo) (p : Project)
       (ts base : String) (testing : Bool) (branch : Option String) (ti : Bool),
      p.disabled = true →
      get_build_steps bl ei (some p) ts base testing branch ti = .ok []) ∧
    (∀ (bl : BuildLib) (y : ProjectYaml) (lines : List String) (pname : String)
       (ii : ImageInfo) (rdate : String) (testing : Bool) (branch : Option String)
       (ti : Bool), y.disabled = true →
      coverage_get_build_steps bl (.ok (y, lines)) pname ii rdate testing branch ti =
        .ok []) ∧
    (∀ (bl : BuildLib) (e : ConfigError) (pname : String) (ii : ImageInfo)
       (rdate : String) (testing : Bool) (branch : Option String) (ti : Bool),
      coverage_get_build_steps bl (.error e) pname ii rdate testing branch ti =
        .error e) := by
  refine ⟨fun _ _ _ _ _ _ _ => rfl, ?_, ?_, fun _ _ _ _ _ _ _ _ => rfl⟩
  · intro bl ei p ts base testing branch ti hdis
    simp [get_build_steps, hdis]
  · intro bl y lines pname ii rdate testing branch ti hdis
    simp [coverage_get_build_steps, hdis, Bind.bind, Except.bind, pure, Except.pure]

/-- Witness for C2: the skip paths evaluated at concrete inputs. -/
theorem c2_skip_behavior_witness :
    get_build_steps specBuildLib specEngineInfo
      (some { scenarioProject with disabled := true })
      "202010102020" "oss-fuzz-base" false none false = .ok [] ∧
    coverage_get_build_steps specBuildLib
      (.ok (⟨true, "c", "", ["libfuzzer"]⟩, ["FROM gcr.io/oss-fuzz-base/base-builder"]))
      "libxml2" ⟨"oss-fuzz", "oss-fuzz-base"⟩ "20201010" false none false = .ok [] ∧
    coverage_get_build_steps specBuildLib (.error .configNotFound)
      "libxml2" ⟨"oss-fuzz", "oss-fuzz-base"⟩ "20201010" false none false =
      .error .configNotFound := by
  refine ⟨?_, ?_, ?_⟩
  · exact c2_skip_behavior.2.1 specBuildLib specEngineInfo
      { scenarioProject with disabled := true } "202010102020" "oss-fuzz-base"
      false none false rfl
  · exact c2_skip_behavior.2.2.1 specBuildLib ⟨true, "c", "", ["libfuzzer"]⟩
      ["FROM gcr.io/oss-fuzz-base/base-builder"] "libxml2"
      ⟨"oss-fuzz", "oss-fuzz-base"⟩ "20201010" false none false rfl
  · exact c2_skip_behavior.2.2.2 specBuildLib .configNotFound "libxml2"
      ⟨"oss-fuzz", "oss-fuzz-base"⟩ "20201010" false none false

/-- Counterexample for C2 as stated: for a missing descriptor
(ConfigNotFound from the loader) the coverage planner propagates the error;
it does not return the empty list of steps. -/
theorem c2_coverage_missing_config_counterexample :
    coverage_get_build_steps specBuildLib (.error .configNotFound)
      "libxml2" ⟨"oss-fuzz", "oss-fuzz-base"⟩ "20201010" false none false =
      .error .configNotFound ∧
    (Except.error ConfigError.configNotFound : Except ConfigError (List Step)) ≠
      .ok [] := by
  exact ⟨rfl, by simp⟩

/-- Claim C9: the coverage planner returns the empty plan (an `ok` result,
not an error) whenever the project's language is outside the
coverage-capable set, and whenever the corpus-download collaborator yields
no steps. -/
theorem c9_coverage_skip (bl : BuildLib) (y : ProjectYaml) (lines : List String)
    (pname : String) (ii : ImageInfo) (rdate : String) (testing : Bool)
    (branch : Option String) (ti : Bool) :
    (y.language ∉ LANGUAGES_WITH_COVERAGE_SUPPORT →
      coverage_get_build_steps bl (.ok (y, lines)) pname ii rdate testing branch ti =
        .ok []) ∧
    (bl.download_corpora_steps pname testing = [] →
      coverage_get_build_steps bl (.ok (y, lines)) pname ii rdate testing branch ti =
        .ok []) := by
  constructor
  · intro hlang
    by_cases hd : y.disabled <;>
      simp [coverage_get_build_steps, hd, List.elem_iff, hlang, Bind.bind, Except.bind,
        pure, Except.pure]
  · intro hcorp
    by_cases hd : y.disabled
    · simp [coverage_get_build_steps, hd, Bind.bind, Except.bind, pure, Except.pure]
    · by_cases hl : LANGUAGES_WITH_COVERAGE_SUPPORT.contains y.language <;>
        simp [coverage_get_build_steps, hd, hl, hcorp, Bind.bind, Except.bind,
          pure, Except.pure]

/-- Witness for C9: a Python project is skipped (empty coverage plan), and a
C project with no downloadable corpora is skipped too. -/
theorem c9_coverage_skip_witness :
    coverage_get_build_steps specBuildLib
      (.ok (⟨false, "python", "", ["libfuzzer"]⟩, ["FROM gcr.io/oss-fuzz-base/base-builder"]))
      "pyproj" ⟨"oss-fuzz", "oss-fuzz-base"⟩ "20201010" false none false = .ok [] ∧
    coverage_get_build_steps specBuildLib
      (.ok (⟨false, "c", "", ["libfuzzer"]⟩, ["FROM gcr.io/oss-fuzz-base/base-builder"]))
      "libxml2" ⟨"oss-fuzz", "oss-fuzz-base"⟩ "20201010" false none false = .ok [] := by
  constructor
  · exact (c9_coverage_skip specBuildLib ⟨false, "python", "", ["libfuzzer"]⟩
      ["FROM gcr.io/oss-fuzz-base/base-builder"] "pyproj"
      ⟨"oss-fuzz", "oss-fuzz-base"⟩ "20201010" false none false).1 (by decide)
  · exact (c9_coverage_skip specBuildLib ⟨false, "c", "", ["libfuzzer"]⟩
      ["FROM gcr.io/oss-fuzz-base/base-builder"] "libxml2"
      ⟨"oss-fuzz", "oss-fuzz-base"⟩ "20201010" false none false).2 rfl

/-- A corpus-download collaborator that yields one step, for exercising the
coverage planner's non-empty path. -/
def covBuildLibC4 : BuildLib :=
  { specBuildLib with
    download_corpora_steps := fun project_name _ =>
      [{ name := "gcr.io/oss-fuzz-base/base-runner"
         args := ["download_corpora", project_name]
         volumes := [("corpus", "/corpus")] }] }

/-- Claim C4 (code bug): on a coverage-capable project with a non-empty
corpus download, the coverage planner produces a non-empty 10-step plan
containing zero compile steps — the source computes the compile step but
never appends it — although the compile step it computes (coverage
sanitizer, libFuzzer engine, default architecture) is a compile step. -/
theorem c4_coverage_plan_has_no_compile_step :
    ((coverage_get_build_steps covBuildLibC4
        (.ok (⟨false, "c++", "", ["libfuzzer"]⟩, ["FROM gcr.io/oss-fuzz-base/base-builder"]))
        "libxml2" ⟨"oss-fuzz", "oss-fuzz-base"⟩ "20201010" false none false).toOption.map
      fun plan => (plan.length, plan.countP isCompileStep)) = some (10, 0) ∧
    isCompileStep (covBuildLibC4.get_compile_step "libxml2"
      (get_env "c++" ⟨COV_FUZZING_ENGINE, COV_SANITIZER, COV_ARCHITECTURE⟩)
      "gcr.io/oss-fuzz/libxml2" COV_FUZZING_ENGINE COV_SANITIZER COV_ARCHITECTURE
      ["FROM gcr.io/oss-fuzz-base/base-builder"]) = true := by
  constructor <;> decide

/-- Counterexample for C5 as stated: the section 8 scenario plan has 18
steps, not 16 (each upload chain has 6 steps, not 5: zip, srcmap upload,
binary upload, targets-list upload, latest-version pointer, cleanup). -/
theorem c5_total_step_count_counterexample :
    scenarioPlan.length = 18 ∧ scenarioPlan.length ≠ 16 := by
  constructor <;> decide

/-- Claim C5 (amended): the section 8 scenario plan contains exactly 2
compile steps, 2 test steps, 0 label steps, 2 targets-list steps, 2 times 5
upload-related steps and 2 cleanup steps, for a total step count of 18. -/
theorem c5_scenario_step_counts :
    scenarioPlan.countP isCompileStep = 2 ∧
    scenarioPlan.countP isTestStep = 2 ∧
    scenarioPlan.countP isLabelStep = 0 ∧
    scenarioPlan.countP isTargetsListStep = 2 ∧
    scenarioPlan.countP isUploadRelatedStep = 10 ∧
    scenarioPlan.countP isCleanupStep = 2 ∧
    scenarioPlan.length = 18 := by
  refine ⟨by decide, by decide, by decide, by decide, by decide, by decide, by decide⟩

end OssFuzz
